import Mathlib

/-!
Verification of the fuzzing pool-configuration resolution engine
(`common/pool.py` and its near-identical copy `decision/pool.py`).

The embedding models:
  * the size/time parsers (`PoolConfiguration.parse_size`, `parse_time`),
  * CPU-alias normalization (`alias_cpu`),
  * the machine-type catalog and its `filter`/`cpus` queries (`MachineTypes`),
  * pool-configuration construction (`PoolConfiguration.__init__`), the
    parent-merge pass (`_flatten`), `is_complete` and `get_machine_list`.

Numbers: Python floats are modelled as exact rationals (ℚ).  Every concrete
value appearing in the claims (binary SI multiples, whole seconds, small
integer quotients) is exactly representable in IEEE double, so no verdict
depends on the float/ℚ difference.  Python exceptions are modelled by
`Except Err`.
-/

/-- Python exceptions raised by the code under verification.  The spec's
error taxonomy maps onto these: `ParseError` ~ `parseError`, `CycleError` ~
`cycleError`, `SchemaError` ~ `nameRequired`/`invalidCloud`, `CompletenessError`
~ `completenessError`, `NotFoundError` ~ `notFound`.  `typeError`, `keyError`
and `zeroDivision` model Python `TypeError`/`KeyError`/`ZeroDivisionError`.
`fuelExhausted` is an artifact of modelling recursion with fuel; it never
occurs when the fuel exceeds the recursion depth of the input. -/
inductive Err where
  | parseError
  | cycleError (name : String)
  | nameRequired
  | invalidCloud
  | invalidCpu
  | completenessError
  | typeError
  | keyError
  | notFound
  | zeroDivision
  | fuelExhausted
  deriving Repr, DecidableEq

deriving instance DecidableEq for Except

/-- Python's `\s` character class (ASCII part): the regexes in `pool.py` are
applied to configuration strings, which are ASCII. -/
def pyWs (c : Char) : Bool :=
  c = ' ' || c = '\t' || c = '\n' || c = '\r' || c = '\x0b' || c = '\x0c'

/-- Value of a decimal digit string (the number denoted by `match.group(1)`). -/
def decimalValue (ds : List Char) : Nat :=
  ds.foldl (fun a c => 10 * a + (c.toNat - '0'.toNat)) 0

/-- The numeric-literal part `(\d+\.\d*|\.\d+|\d+)` of the `parse_size` regex,
applied at the current position: returns the denoted value and the remaining
characters.  The regex alternation is ordered: with leading digits followed by
a dot the first alternative wins, with leading digits and no dot the third,
with a leading dot followed by digits the second. -/
def numLitMatch (s : List Char) : Option (ℚ × List Char) :=
  match s.takeWhile Char.isDigit, s.dropWhile Char.isDigit with
  | d1@(_ :: _), '.' :: r2 =>
    some ((decimalValue d1 : ℚ)
            + (decimalValue (r2.takeWhile Char.isDigit) : ℚ)
              / (10 : ℚ) ^ (r2.takeWhile Char.isDigit).length,
          r2.dropWhile Char.isDigit)
  | d1@(_ :: _), r1 => some ((decimalValue d1 : ℚ), r1)
  | [], '.' :: r2 =>
    match r2.takeWhile Char.isDigit with
    | [] => none
    | d2 => some ((decimalValue d2 : ℚ) / (10 : ℚ) ^ d2.length,
                  r2.dropWhile Char.isDigit)
  | [], _ => none

/-- Binary multiplier table of `parse_size` (1 for a character that is not a
recognized SI prefix, matching the empty capture of `([kmgt]?)`). -/
def siMult (c : Char) : ℚ :=
  if c = 'k' then 1024
  else if c = 'm' then 1024 ^ 2
  else if c = 'g' then 1024 ^ 3
  else if c = 't' then 1024 ^ 4
  else 1

/-- Model of `PoolConfiguration.parse_size` (pool.py lines 262-287).
`re.match(r"\s*(\d+\.\d*|\.\d+|\d+)\s*([kmgt]?)b?\s*", size, re.IGNORECASE)`
anchors only at the start of the string: after the numeric literal, an
optional SI prefix and optional `b` are consumed, and any remaining text lies
outside the match and is ignored.  The assert fires (ParseError) exactly when
the numeric literal fails to match.  `multOf` reads the `([kmgt]?)` capture at
the head of the post-literal text (1 when the head is not a prefix letter). -/
def multOf (rest : List Char) : ℚ :=
  match rest with
  | c :: _ => siMult c.toLower
  | [] => 1

def parse_size (size : String) (divisor : ℚ) : Except Err ℚ :=
  match numLitMatch (size.data.dropWhile pyWs) with
  | none => .error .parseError
  | some (v, rest) => .ok (v * multOf (rest.dropWhile pyWs) / divisor)

/-- Unit table of `parse_time` (seconds per unit). -/
def timeMult (c : Char) : Nat :=
  if c = 'w' then 7 * 24 * 60 * 60
  else if c = 'd' then 24 * 60 * 60
  else if c = 'h' then 60 * 60
  else if c = 'm' then 60
  else 1

/-- One application of the `parse_time` regex
`re.match(r"\s*(\d+)\s*([wdhms]?)\s*(.*)", time, re.IGNORECASE)`: returns
`(group(1) value, group(2) unit lower-cased, group(3))`, or `none` when there
is no leading integer.  `\s*` is greedy (consuming newlines too) and `(.*)`
stops at the first newline, so `group(3)` is the whitespace-stripped remainder
up to a newline; text beyond a newline falls outside the match and is dropped
when the loop continues on `group(3)`. -/
def timeMatch (s : List Char) : Option (Nat × Option Char × List Char) :=
  let s1 := s.dropWhile pyWs
  match s1.takeWhile Char.isDigit with
  | [] => none
  | ds =>
    let r1 := (s1.dropWhile Char.isDigit).dropWhile pyWs
    let ur2 : Option Char × List Char :=
      match r1 with
      | c :: cs =>
        if c.toLower = 'w' ∨ c.toLower = 'd' ∨ c.toLower = 'h'
            ∨ c.toLower = 'm' ∨ c.toLower = 's'
        then (some c.toLower, cs)
        else (none, r1)
      | [] => (none, [])
    some (decimalValue ds, ur2.1,
          (ur2.2.dropWhile pyWs).takeWhile (fun c => c ≠ '\n'))

/-- The `while time:` loop of `PoolConfiguration.parse_time` (lines 300-323).
State: remaining text, accumulated `result`, `got_anything`.  Each successful
regex application consumes at least the matched digits, so `fuel` one larger
than the length of the remaining text is always sufficient; `fuelExhausted`
is unreachable from `parse_time` below. -/
def parseTimeLoop : Nat → List Char → Nat → Bool → Except Err Nat
  | _, [], result, _ => .ok result
  | 0, _ :: _, _, _ => .error .fuelExhausted
  | fuel + 1, time@(_ :: _), result, got =>
    match timeMatch time with
    | none =>
      -- `assert got_anything or match is not None`; then `if match is None: break`
      if got then .ok result else .error .parseError
    | some (n, some u, rest) =>
      parseTimeLoop fuel rest (result + n * timeMult u) true
    | some (n, none, rest) =>
      -- `assert not match.group(3), "trailing data"`
      if ¬ rest.isEmpty then .error .parseError
      -- `assert not got_anything, "multipart time must specify all units"`
      else if got then .error .parseError
      else parseTimeLoop fuel rest (result + n * 1) true

/-- Model of `PoolConfiguration.parse_time` (pool.py lines 289-324). -/
def parse_time (time : String) (divisor : ℚ) : Except Err ℚ :=
  (parseTimeLoop time.length time.data 0 false).map
    (fun result => (result : ℚ) / divisor)

/-- The `CPU_ALIASES` table (pool.py lines 32-39). -/
def CPU_ALIASES : List (String × String) :=
  [("x86_64", "x64"), ("amd64", "x64"), ("x86-64", "x64"),
   ("x64", "x64"), ("arm64", "arm64"), ("aarch64", "arm64")]

/-- Python `str.lower()` on the ASCII configuration strings: character-wise
lower-casing. -/
def pyLower (s : String) : String :=
  ⟨s.data.map Char.toLower⟩

/-- Model of `PoolConfiguration.alias_cpu` (lines 251-260): dictionary lookup on the
lower-cased name; a missing key is a Python `KeyError`. -/
def alias_cpu (cpu_name : String) : Except Err String :=
  match CPU_ALIASES.lookup (pyLower cpu_name) with
  | some v => .ok v
  | none => .error .invalidCpu

/-- One machine entry of `machines.yml`: required `cpu` and `ram` keys plus
the optional `metal` flag (`spec.get("metal", False)`). -/
structure MachineSpec where
  cpu : Nat
  ram : ℚ
  metal : Option Bool
  deriving Repr, DecidableEq

/-- Model of `MachineTypes` (pool.py lines 44-91): nested mapping provider →
architecture → machine name → spec, kept in insertion order as Python dicts
are. -/
structure MachineTypes where
  data : List (String × List (String × List (String × MachineSpec)))
  deriving Repr, DecidableEq

/-- Lookup `self._data[provider][architecture]`; `none` models a Python `KeyError`. -/
def MachineTypes.lookupArch (m : MachineTypes) (provider architecture : String) :
    Option (List (String × MachineSpec)) :=
  (m.data.lookup provider).bind fun archs => archs.lookup architecture

/-- Body of the generator loop in `MachineTypes.filter` (lines 85-91).
Python's `and` short-circuits, so `spec["ram"] / spec["cpu"]` is evaluated
(and can raise `ZeroDivisionError`) only when `spec["cpu"] >= min_cpu`
holds. -/
def filterLoop (min_cpu : Nat) (min_ram_per_cpu : ℚ) (metal : Bool) :
    List (String × MachineSpec) → Except Err (List String)
  | [] => .ok []
  | (name, spec) :: rest =>
    if min_cpu ≤ spec.cpu then
      if spec.cpu = 0 then .error .zeroDivision
      else if min_ram_per_cpu ≤ spec.ram / (spec.cpu : ℚ) then
        if !metal || (metal && spec.metal.getD false) then
          (filterLoop min_cpu min_ram_per_cpu metal rest).map (name :: ·)
        else filterLoop min_cpu min_ram_per_cpu metal rest
      else filterLoop min_cpu min_ram_per_cpu metal rest
    else filterLoop min_cpu min_ram_per_cpu metal rest

/-- Model of `MachineTypes.filter` (pool.py lines 72-91). -/
def MachineTypes.filter (m : MachineTypes) (provider architecture : String)
    (min_cpu : Nat) (min_ram_per_cpu : ℚ) (metal : Bool) :
    Except Err (List String) :=
  match m.lookupArch provider architecture with
  | none => .error .keyError
  | some machines => filterLoop min_cpu min_ram_per_cpu metal machines

/-- Model of `MachineTypes.cpus` (pool.py lines 69-70). -/
def MachineTypes.cpus (m : MachineTypes) (provider architecture machine : String) :
    Except Err Nat :=
  match (m.lookupArch provider architecture).bind (fun ms => ms.lookup machine) with
  | none => .error .keyError
  | some spec => .ok spec.cpu

/-- The raw field mapping a `PoolConfiguration` is built from.  A structure
with exactly the sixteen declared field names models a mapping that passed the
`set(data) == FIELDS` check of `__init__` (lines 117-120); `none` models a key
set to YAML `null`. -/
structure RawPool where
  cloud : Option String
  command : Option (List String)
  container : Option String
  cores_per_task : Option Nat
  cpu : Option String
  cycle_time : Option String
  disk_size : Option String
  imageset : Option String
  macros : Option (List (String × String))
  metal : Option Bool
  minimum_memory_per_core : Option String
  name : Option String
  parents : Option (List String)
  platform : Option String
  scopes : Option (List String)
  tasks : Option Nat
  deriving Repr, DecidableEq

/-- The attribute state of a `PoolConfiguration` object.  `macros`, `command`,
`parents` and `scopes` are plain containers because `__init__` can only build
them from actual containers (`.copy()` / `[:]` on `None` raises), so they are
never `None` on a constructed object. -/
structure Config where
  filename : String
  container : Option String
  cores_per_task : Option Nat
  imageset : Option String
  metal : Option Bool
  name : Option String
  platform : Option String
  tasks : Option Nat
  macros : List (String × String)
  command : List String
  parents : List String
  scopes : List String
  minimum_memory_per_core : Option ℚ
  disk_size : Option Int
  cycle_time : Option Int
  cpu : Option String
  cloud : Option String
  id : String
  deriving Repr, DecidableEq

/-- Python `int()` truncation toward zero applied to a float, as in
`int(self.parse_size(...))` and `int(self.parse_time(...))`. -/
def pyInt (q : ℚ) : Int :=
  if 0 ≤ q then q.floor else -((-q).floor)

/-- The divisor `self.parse_size("1g")` used to normalize sizes (lines
143-150): one binary gigabyte. -/
def oneGig : ℚ := 1024 ^ 3

/-- Size normalization of lines 143-146: absent stays unset, present is
parsed with divisor `parse_size("1g")`. -/
def optParseSize (o : Option String) : Except Err (Option ℚ) :=
  match o with
  | none => .ok none
  | some s => (parse_size s oneGig).map some

/-- Disk-size normalization of lines 147-150 (`int(...)` truncation). -/
def optParseSizeInt (o : Option String) : Except Err (Option Int) :=
  match o with
  | none => .ok none
  | some s => (parse_size s oneGig).map (fun q => some (pyInt q))

/-- Cycle-time normalization of lines 153-155. -/
def optParseTimeInt (o : Option String) : Except Err (Option Int) :=
  match o with
  | none => .ok none
  | some s => (parse_time s 1).map (fun q => some (pyInt q))

/-- CPU normalization of lines 158-162: `alias_cpu` then
`assert cpu in ARCHITECTURES` (which always holds for an alias-table value). -/
def optAliasCpu (o : Option String) : Except Err (Option String) :=
  match o with
  | none => .ok none
  | some s =>
    match alias_cpu s with
    | .error e => .error e
    | .ok c =>
      if c = "x64" ∨ c = "arm64" then .ok (some c) else .error .invalidCpu

/-- Cloud validation of lines 164-168: `assert data["cloud"] in PROVIDERS`
(a `None` value is not in the frozenset either). -/
def checkCloud (o : Option String) : Except Err String :=
  match o with
  | some c => if c = "aws" ∨ c = "gcp" then .ok c else .error .invalidCloud
  | none => .error .invalidCloud

/-- The field-normalization part of `PoolConfiguration.__init__` (pool.py
lines 122-168), before `_flatten` runs.  Error order follows the source: the
`name` assert (line 129) precedes the container copies (134-139), which
precede size (143-150), time (153-155), cpu (159-162) and cloud (164-168)
validation.  `id` is assigned only after flattening and is initialized empty
here. -/
def initFields (filename : String) (data : RawPool) : Except Err Config :=
  match data.name with
  | none => .error .nameRequired
  | some nm =>
    -- `.copy()` / `[:]` on a `None` container raises, in line order 134-139
    match data.macros with
    | none => .error .typeError
    | some macros =>
    match data.command with
    | none => .error .typeError
    | some command =>
    match data.parents with
    | none => .error .typeError
    | some parents =>
    match data.scopes with
    | none => .error .typeError
    | some scopes =>
      match optParseSize data.minimum_memory_per_core with
      | .error e => .error e
      | .ok mmpc =>
        match optParseSizeInt data.disk_size with
        | .error e => .error e
        | .ok disk =>
          match optParseTimeInt data.cycle_time with
          | .error e => .error e
          | .ok cyc =>
            match optAliasCpu data.cpu with
            | .error e => .error e
            | .ok cpu =>
              match checkCloud data.cloud with
              | .error e => .error e
              | .ok cloud =>
                .ok { filename := filename
                      container := data.container
                      cores_per_task := data.cores_per_task
                      imageset := data.imageset
                      metal := data.metal
                      name := some nm
                      platform := data.platform
                      tasks := data.tasks
                      macros := macros
                      command := command
                      parents := parents
                      scopes := scopes
                      minimum_memory_per_core := mmpc
                      disk_size := disk
                      cycle_time := cyc
                      cpu := cpu
                      cloud := some cloud
                      id := "" }

/-- One field of the overwrite loop:
`if getattr(self, field) is None: setattr(self, field, getattr(parent_obj,
field))` for one field. -/
def pyOr {α : Type} (child parent : Option α) : Option α :=
  match child with
  | none => parent
  | some v => some v

/-- The loop over the twelve "normal" overwriting fields of `_flatten`
(pool.py lines 189-205). -/
def mergeNormalFields (child parent : Config) : Config :=
  { child with
    cloud := pyOr child.cloud parent.cloud
    container := pyOr child.container parent.container
    cores_per_task := pyOr child.cores_per_task parent.cores_per_task
    cpu := pyOr child.cpu parent.cpu
    cycle_time := pyOr child.cycle_time parent.cycle_time
    disk_size := pyOr child.disk_size parent.disk_size
    imageset := pyOr child.imageset parent.imageset
    metal := pyOr child.metal parent.metal
    minimum_memory_per_core := pyOr child.minimum_memory_per_core parent.minimum_memory_per_core
    name := pyOr child.name parent.name
    platform := pyOr child.platform parent.platform
    tasks := pyOr child.tasks parent.tasks }

/-- Python `base.copy()` followed by `.update(overlay)` on dicts with unique
keys: overlapping keys keep the base's position but take the overlay's value;
new overlay keys are appended in overlay order. -/
def dictUpdate (base overlay : List (String × String)) : List (String × String) :=
  base.map (fun kv => (kv.1, (overlay.lookup kv.1).getD kv.2))
    ++ overlay.filter (fun kv => (base.lookup kv.1).isNone)

/-- The merged-dict-fields loop of `_flatten` (pool.py lines 207-211):
`copy = parent.macros.copy(); copy.update(self.macros); self.macros = copy`. -/
def mergeMacros (child parent : Config) : Config :=
  { child with macros := dictUpdate parent.macros child.macros }

/-- One iteration of the `for parent in self.parents` body of `_flatten`
after the parent object has been resolved (pool.py lines 189-224): normal
fields, then macros, then the scopes merge

    `list(set(getattr(self, field)) + set(getattr(parent_obj, field)))`

which applies `+` to two Python `set` objects — an unsupported operand pair —
and therefore raises `TypeError` unconditionally.  The command fallback loop
(lines 221-224) is unreachable. -/
def mergeParent (child parent : Config) : Except Err Config :=
  let c1 := mergeNormalFields child parent
  let c2 := mergeMacros c1 parent
  let _ := c2
  .error .typeError

/-- An external configuration loader (spec §6 `ConfigLoader`): what
`PoolConfiguration.from_file` reaches through the filesystem, as a mapping
from parent reference name to raw document. -/
def Loader := List (String × RawPool)

/-- The `_flatten` parent loop (pool.py lines 181-224) together with the
recursive `from_file` construction of each parent (lines 187, 244-249):
for each parent name in declaration order, check the shared `flattened` set,
add the name, load and recursively resolve the parent with the same set
threaded through, then merge it into the child.  `fuel` bounds the recursion
depth of the model; any fuel larger than the number of distinct loadable
names is sufficient because each recursive call follows an `add` to the
visited set. -/
def flattenLoop (loader : Loader) :
    Nat → List String → Config → List String → Except Err (Config × List String)
  | _, [], cfg, visited => .ok (cfg, visited)
  | 0, _ :: _, _, _ => .error .fuelExhausted
  | fuel + 1, p :: ps, cfg, visited =>
    if p ∈ visited then
      -- `assert parent not in flattened, "attempt to resolve cyclic ..."`
      .error (.cycleError p)
    else
      match List.lookup p loader with
      | none => .error .notFound
      | some raw =>
        match initFields p raw with
        | .error e => .error e
        | .ok pInit =>
          match flattenLoop loader fuel pInit.parents pInit (p :: visited) with
          | .error e => .error e
          | .ok (pObj, visited') =>
            match mergeParent cfg pObj with
            | .error e => .error e
            | .ok cfg' => flattenLoop loader fuel ps cfg' visited'

/-- Python `str()` of an attribute that may be `None`, as used by the
f-string `f"{self.platform}-{self.filename}"`. -/
def pyStr (o : Option String) : String :=
  match o with
  | none => "None"
  | some s => s

/-- Full construction of a root `PoolConfiguration` (pool.py lines 116-175):
field normalization, `_flatten` with a fresh visited set, then the pool id
`f"{self.platform}-{self.filename}"`. -/
def resolvePool (loader : Loader) (filename : String) (data : RawPool)
    (fuel : Nat) : Except Err Config :=
  match initFields filename data with
  | .error e => .error e
  | .ok cfg =>
    match flattenLoop loader fuel cfg.parents cfg [] with
    | .error e => .error e
    | .ok (cfg', _) =>
      .ok { cfg' with id := pyStr cfg'.platform ++ "-" ++ cfg'.filename }

/-- Model of `PoolConfiguration.is_complete` (pool.py lines 177-179):
`assert getattr(self, field) is not None` for every declared field.  The four
container fields (`macros`, `command`, `parents`, `scopes`) are plain lists on
a constructed object and never `None`, so only the optional attributes can
fire the assert. -/
def Config.is_complete (cfg : Config) : Except Err Unit :=
  if cfg.cloud.isSome ∧ cfg.container.isSome ∧ cfg.cores_per_task.isSome
      ∧ cfg.cpu.isSome ∧ cfg.cycle_time.isSome ∧ cfg.disk_size.isSome
      ∧ cfg.imageset.isSome ∧ cfg.metal.isSome
      ∧ cfg.minimum_memory_per_core.isSome ∧ cfg.name.isSome
      ∧ cfg.platform.isSome ∧ cfg.tasks.isSome
  then .ok () else .error .completenessError

/-- The generator body of `get_machine_list` (pool.py lines 234-242): for
each filtered machine name, look up its cpu count and yield
`(machine, cpus // self.cores_per_task)`.  Integer `//` on a zero
`cores_per_task` raises `ZeroDivisionError`. -/
def gmlLoop (mt : MachineTypes) (cloud cpu : String) (cores : Nat) :
    List String → Except Err (List (String × Nat))
  | [] => .ok []
  | name :: rest =>
    match mt.cpus cloud cpu name with
    | .error e => .error e
    | .ok c =>
      if cores = 0 then .error .zeroDivision
      else
        match gmlLoop mt cloud cpu cores rest with
        | .error e => .error e
        | .ok acc => .ok ((name, c / cores) :: acc)

/-- Model of `PoolConfiguration.get_machine_list` (pool.py lines 226-242).  The pool's
own attributes are passed to `MachineTypes.filter`; an unset
`cores_per_task`/`minimum_memory_per_core` would fail the comparisons inside
`filter` (`TypeError`), an unset `cloud`/`cpu` would miss the catalog keys
(`KeyError`), and an unset `metal` is falsy in `not metal`, behaving exactly
like `False`. -/
def Config.get_machine_list (cfg : Config) (mt : MachineTypes) :
    Except Err (List (String × Nat)) :=
  match cfg.cores_per_task, cfg.minimum_memory_per_core with
  | some cores, some mmpc =>
    match cfg.cloud, cfg.cpu with
    | some cloud, some cpu =>
      match mt.filter cloud cpu cores mmpc (cfg.metal.getD false) with
      | .error e => .error e
      | .ok names => gmlLoop mt cloud cpu cores names
    | _, _ => .error .keyError
  | _, _ => .error .typeError

/-! Concrete documents used to settle the merge-related claims. -/
/-- A self-contained parent document: every list/dict field a real container,
`name` and `cloud` valid, no parents. -/
def c1ParentRaw : RawPool :=
  { cloud := some "aws", command := some ["run"], container := some "ct"
    cores_per_task := some 2, cpu := some "x64", cycle_time := none
    disk_size := none, imageset := some "img", macros := some []
    metal := some false, minimum_memory_per_core := none, name := some "parent-pool"
    parents := some [], platform := some "linux", scopes := some ["scope-b", "scope-a"]
    tasks := some 1 }

/-- A child document declaring one parent and its own scopes. -/
def c1ChildRaw : RawPool :=
  { cloud := some "aws", command := some [], container := none
    cores_per_task := none, cpu := none, cycle_time := none
    disk_size := none, imageset := none, macros := some []
    metal := none, minimum_memory_per_core := none, name := some "child-pool"
    parents := some ["p1"], platform := none, scopes := some ["scope-a"]
    tasks := none }

def c1Loader : Loader := [("p1", c1ParentRaw)]

/-- The parent of the spec's merge-correctness example:
`{cores_per_task: 4, macros: {"A":"0","B":"2"}}`. -/
def c2ParentRaw : RawPool :=
  { cloud := some "aws", command := some ["run"], container := some "ct"
    cores_per_task := some 4, cpu := some "x64", cycle_time := none
    disk_size := none, imageset := some "img", macros := some [("A", "0"), ("B", "2")]
    metal := some false, minimum_memory_per_core := none, name := some "parent-pool"
    parents := some [], platform := some "linux", scopes := some []
    tasks := some 1 }

/-- The child of the spec's merge-correctness example:
`{cores_per_task: None, macros: {"A":"1"}}`. -/
def c2ChildRaw : RawPool :=
  { cloud := some "aws", command := some [], container := none
    cores_per_task := none, cpu := none, cycle_time := none
    disk_size := none, imageset := none, macros := some [("A", "1")]
    metal := none, minimum_memory_per_core := none, name := some "child-pool"
    parents := some ["p2"], platform := none, scopes := some []
    tasks := none }

def c2Loader : Loader := [("p2", c2ParentRaw)]

/-- The `initFields` output for `c2ChildRaw`. -/
def c2ChildCfg : Config :=
  { filename := "child", container := none, cores_per_task := none
    imageset := none, metal := none, name := some "child-pool"
    platform := none, tasks := none, macros := [("A", "1")]
    command := [], parents := ["p2"], scopes := []
    minimum_memory_per_core := none, disk_size := none, cycle_time := none
    cpu := none, cloud := some "aws", id := "" }

/-- The `initFields` output for `c2ParentRaw`. -/
def c2ParentCfg : Config :=
  { filename := "p2", container := some "ct", cores_per_task := some 4
    imageset := some "img", metal := some false, name := some "parent-pool"
    platform := some "linux", tasks := some 1, macros := [("A", "0"), ("B", "2")]
    command := ["run"], parents := [], scopes := []
    minimum_memory_per_core := none, disk_size := none, cycle_time := none
    cpu := some "x64", cloud := some "aws", id := "" }

/-- Grandparent `g` of the diamond ancestry, with no parents of its own. -/
def c5GrandRaw : RawPool :=
  { cloud := some "aws", command := some ["run"], container := some "ct"
    cores_per_task := some 2, cpu := some "x64", cycle_time := none
    disk_size := none, imageset := some "img", macros := some []
    metal := some false, minimum_memory_per_core := none, name := some "grand"
    parents := some [], platform := some "linux", scopes := some []
    tasks := some 1 }

/-- Parent `a` of the diamond: inherits from `g`. -/
def c5ARaw : RawPool :=
  { cloud := some "aws", command := some [], container := none
    cores_per_task := none, cpu := none, cycle_time := none
    disk_size := none, imageset := none, macros := some []
    metal := none, minimum_memory_per_core := none, name := some "pool-a"
    parents := some ["g"], platform := none, scopes := some []
    tasks := none }

/-- Parent `b` of the diamond: also inherits from `g`. -/
def c5BRaw : RawPool :=
  { cloud := some "aws", command := some [], container := none
    cores_per_task := none, cpu := none, cycle_time := none
    disk_size := none, imageset := none, macros := some []
    metal := none, minimum_memory_per_core := none, name := some "pool-b"
    parents := some ["g"], platform := none, scopes := some []
    tasks := none }

/-- Diamond child: parents `[a, b]`, both of which name `g`. -/
def c5ChildRaw : RawPool :=
  { cloud := some "aws", command := some [], container := none
    cores_per_task := none, cpu := none, cycle_time := none
    disk_size := none, imageset := none, macros := some []
    metal := none, minimum_memory_per_core := none, name := some "diamond-child"
    parents := some ["a", "b"], platform := none, scopes := some []
    tasks := none }

def c5Loader : Loader := [("a", c5ARaw), ("b", c5BRaw), ("g", c5GrandRaw)]

/-- A direct self-cycle: a document naming itself as parent. -/
def c5CycRaw : RawPool :=
  { cloud := some "aws", command := some [], container := none
    cores_per_task := none, cpu := none, cycle_time := none
    disk_size := none, imageset := none, macros := some []
    metal := none, minimum_memory_per_core := none, name := some "cyc"
    parents := some ["cyc"], platform := none, scopes := some []
    tasks := none }

def c5CycLoader : Loader := [("cyc", c5CycRaw)]

/-- A fully-populated root document (every declared field set, no parents),
except that `scopes` is the empty list. -/
def c8Raw : RawPool :=
  { cloud := some "aws", command := some ["run"], container := some "ct"
    cores_per_task := some 1, cpu := some "x64", cycle_time := some "1h"
    disk_size := some "10g", imageset := some "img", macros := some []
    metal := some false, minimum_memory_per_core := some "1g", name := some "full"
    parents := some [], platform := some "linux", scopes := some []
    tasks := some 1 }

/-- Catalog with a single machine whose cpu count (2) is below the pool's
`cores_per_task` (3). -/
def c7SmallMt : MachineTypes :=
  ⟨[("aws", [("x64", [("tiny", ⟨2, 8 * 1024 ^ 3, none⟩)])])]⟩

/-- A resolved pool requiring 3 cores per task. -/
def c7Cfg : Config :=
  { filename := "f", container := some "ct", cores_per_task := some 3
    imageset := some "img", metal := some false, name := some "n"
    platform := some "linux", tasks := some 1, macros := []
    command := ["run"], parents := [], scopes := ["s"]
    minimum_memory_per_core := some 1, disk_size := some 10, cycle_time := some 3600
    cpu := some "x64", cloud := some "aws", id := "linux-f" }

/-- Catalog with a single 8-cpu machine. -/
def c7BigMt : MachineTypes :=
  ⟨[("aws", [("x64", [("m1", ⟨8, 32 * 1024 ^ 3, none⟩)])])]⟩

/-- The per-machine condition of claim C6, written from the spec's words:
`spec.cpu >= minCores` and `spec.ram / spec.cpu >= minRAMPerCore` and
(`requireMetal` is false or the spec's metal flag is true, defaulting to
false when absent). -/
def machineMatches (minCores : Nat) (minRamPerCore : ℚ) (requireMetal : Bool)
    (spec : MachineSpec) : Bool :=
  decide (minCores ≤ spec.cpu) && decide (minRamPerCore ≤ spec.ram / (spec.cpu : ℚ))
    && (!requireMetal || spec.metal.getD false)

/-- The catalog of the claim's example: one machine `m1` with 8 cpus, 32 GiB
of ram and `metal: false`. -/
def c6Mt : MachineTypes :=
  ⟨[("aws", [("x64", [("m1", ⟨8, 32 * 1024 ^ 3, some false⟩)])])]⟩

/-- The cpu count recorded for a machine name in an entry list. -/
def cpuOf (entries : List (String × MachineSpec)) (n : String) : Nat :=
  ((entries.lookup n).map MachineSpec.cpu).getD 0

/-- A root document with valid `name` and `cloud` and no parse-needing
fields, used to instantiate C9's theorem. -/
def c9Raw : RawPool :=
  { cloud := some "gcp", command := some [], container := none
    cores_per_task := none, cpu := none, cycle_time := none
    disk_size := none, imageset := none, macros := some []
    metal := none, minimum_memory_per_core := none, name := some "pool-nine"
    parents := some [], platform := none, scopes := some []
    tasks := none }

/-- The `initFields` output for `c9Raw`. -/
def c9Cfg : Config :=
  { filename := "x9", container := none, cores_per_task := none
    imageset := none, metal := none, name := some "pool-nine"
    platform := none, tasks := none, macros := []
    command := [], parents := [], scopes := []
    minimum_memory_per_core := none, disk_size := none, cycle_time := none
    cpu := none, cloud := some "gcp", id := "" }

/-- A parent with a different `name` and `cloud`, to make the
no-inheritance conclusion of C9's witness meaningful. -/
def c9ParentCfg : Config :=
  { filename := "p9", container := some "ct", cores_per_task := some 2
    imageset := some "img", metal := some false, name := some "other-name"
    platform := some "linux", tasks := some 1, macros := []
    command := ["run"], parents := [], scopes := []
    minimum_memory_per_core := none, disk_size := none, cycle_time := none
    cpu := some "x64", cloud := some "aws", id := "" }

/-- Head of the character list (if any) is neither a digit nor a dot, so no
numeric literal can extend across it. -/
def headNotDigitDot (l : List Char) : Bool :=
  match l with
  | [] => true
  | c :: _ => !c.isDigit && c != '.'

/-- The first character (if any) is a digit. -/
def headDigit : List Char → Bool
  | [] => false
  | d :: _ => d.isDigit

/-- The character list begins with a numeric literal: a digit, or a dot
immediately followed by a digit. -/
def headNumericLiteral : List Char → Bool
  | [] => false
  | c :: rest => c.isDigit || (c = '.' && headDigit rest)

/-- Claim-side condition of C4: the string begins, after optional leading
whitespace, with a numeric literal. -/
def startsWithNumericLiteral (s : String) : Bool :=
  headNumericLiteral (s.data.dropWhile pyWs)

/-- The SI multiplier the claim assigns to an optional prefix. -/
def siMultL (pre : List Char) : ℚ :=
  match pre with
  | c :: _ => siMult c.toLower
  | [] => 1

example : resolvePool c1Loader "child" c1ChildRaw 10 = .error .typeError := rfl

example : initFields "child" c2ChildRaw = .ok c2ChildCfg := rfl

example : initFields "p2" c2ParentRaw = .ok c2ParentCfg := rfl

example : (mergeNormalFields c2ChildCfg c2ParentCfg).cores_per_task = some 4 := rfl

example : (mergeMacros (mergeNormalFields c2ChildCfg c2ParentCfg) c2ParentCfg).macros
    = [("A", "1"), ("B", "2")] := rfl

example : resolvePool c2Loader "child" c2ChildRaw 10 = .error .typeError := rfl

example : resolvePool c5Loader "child" c5ChildRaw 10 = .error .typeError := rfl

example : resolvePool c5CycLoader "cyc" c5CycRaw 10 = .error (.cycleError "cyc") := rfl

example : (resolvePool [] "pool1" c8Raw 10).map
    (fun cfg => (cfg.scopes, cfg.is_complete)) = .ok ([], .ok ()) := rfl

example : c7Cfg.get_machine_list c7SmallMt = .ok [] := rfl

example : c7Cfg.get_machine_list c7BigMt = .ok [("m1", 2)] := by
  norm_num [Config.get_machine_list, MachineTypes.filter, MachineTypes.lookupArch,
    filterLoop, gmlLoop, MachineTypes.cpus, List.lookup, c7Cfg, c7BigMt, Except.map]

/-!  Theorems settling the claims. -/
/-- Claim C10: for the empty string input, `parse_time` returns `0.0` (zero
divided by the default divisor 1) without raising any error: the `while time:`
loop body never runs, so neither assert can fire. -/
theorem c10_parse_time_empty_string : parse_time "" 1 = .ok 0 := by
  have h : parse_time "" 1 = .ok ((0 : ℚ) / 1) := rfl
  rw [h]; norm_num

/-- Claim C1 (code bug): the scopes merge of `_flatten`,
`list(set(getattr(self, field)) + set(getattr(parent_obj, field)))`, applies
`+` to two Python `set` objects and raises `TypeError`, so resolving any
configuration with at least one parent fails instead of producing the
duplicate-free union of child and parent scopes. -/
theorem c1_scopes_merge_raises :
    c1ChildRaw.scopes = some ["scope-a"] ∧
    c1ParentRaw.scopes = some ["scope-b", "scope-a"] ∧
    c1ChildRaw.parents = some ["p1"] ∧
    resolvePool c1Loader "child" c1ChildRaw 10 = .error .typeError :=
  ⟨rfl, rfl, rfl, rfl⟩

/-- Claim C2 (code bug): on the spec's merge-correctness example the
overwrite-if-unset loop does adopt the parent's `cores_per_task == 4` and the
macros overlay does produce `{"A":"1","B":"2"}`, but the same parent-merge
iteration then raises `TypeError` in the scopes union, so resolution of the
example never completes. -/
theorem c2_overwrite_macros_merge :
    initFields "child" c2ChildRaw = .ok c2ChildCfg ∧
    initFields "p2" c2ParentRaw = .ok c2ParentCfg ∧
    c2ChildCfg.cores_per_task = none ∧
    (mergeNormalFields c2ChildCfg c2ParentCfg).cores_per_task = some 4 ∧
    (mergeMacros (mergeNormalFields c2ChildCfg c2ParentCfg) c2ParentCfg).macros
      = [("A", "1"), ("B", "2")] ∧
    mergeParent c2ChildCfg c2ParentCfg = .error .typeError ∧
    resolvePool c2Loader "child" c2ChildRaw 10 = .error .typeError :=
  ⟨rfl, rfl, rfl, rfl, rfl, rfl, rfl⟩

/-- Claim C5 (code bug): on a diamond ancestry (child → a, b; a → g; b → g)
resolution fails with `TypeError` — raised by the scopes merge while `g` is
being merged into `a` — before the shared visited set ever sees the second
path to `g`, so no `CycleError` is reported for any name.  A direct
self-cycle, reached before any merge completes, still yields `CycleError`
with the offending name. -/
theorem c5_diamond_type_error_not_cycle :
    resolvePool c5Loader "child" c5ChildRaw 10 = .error .typeError ∧
    (∀ nm, resolvePool c5Loader "child" c5ChildRaw 10 ≠ .error (.cycleError nm)) ∧
    resolvePool c5CycLoader "cyc" c5CycRaw 10 = .error (.cycleError "cyc") := by
  refine ⟨rfl, ?_, rfl⟩
  intro nm h
  rw [show resolvePool c5Loader "child" c5ChildRaw 10 = .error .typeError from rfl] at h
  simp at h

/-- Claim C3 counterexample: non-numeric trailing garbage after a
unit-bearing component does not make `parse_time` fail — the second regex
application finds no leading integer in `"xyz"`, the `got_anything` guard
lets the loop break, and the accumulated 3600 seconds are returned. -/
theorem c3_trailing_garbage_counterexample : parse_time "1h xyz" 1 = .ok 3600 := by
  have h : parse_time "1h xyz" 1 = .ok ((3600 : ℚ) / 1) := rfl
  rw [h]; norm_num

/-- Claim C3 (amended): once a unit-bearing component has been consumed
(`got_anything` true), a following component that begins with an integer must
carry a unit — a bare integer (with or without trailing text) raises
`ParseError`, as in `"1h30"` — but remaining text that does not begin with an
integer is not an error: the loop breaks and returns the value accumulated so
far. -/
theorem c3_parse_time_after_unit_amended (fuel : Nat) (time : List Char)
    (result : Nat) (h : time ≠ []) :
    (timeMatch time = none → parseTimeLoop (fuel + 1) time result true = .ok result) ∧
    (∀ n rest, timeMatch time = some (n, none, rest) →
      parseTimeLoop (fuel + 1) time result true = .error .parseError) ∧
    parse_time "1h30" 1 = .error .parseError := by
  obtain ⟨c, cs, rfl⟩ := List.exists_cons_of_ne_nil h
  refine ⟨?_, ?_, rfl⟩
  · intro hm
    simp [parseTimeLoop, hm]
  · intro n rest hm
    simp only [parseTimeLoop, hm]
    by_cases hr : rest.isEmpty <;> simp [hr]

/-- Witness for C3's amended theorem at concrete inputs: with 3600 seconds
accumulated, remainder `"30"` (a bare integer) fails while remainder `"xyz"`
returns the accumulated value. -/
theorem c3_parse_time_after_unit_amended_witness :
    parseTimeLoop 1 "30".data 3600 true = .error .parseError ∧
    parseTimeLoop 1 "xyz".data 3600 true = .ok 3600 :=
  ⟨(c3_parse_time_after_unit_amended 0 "30".data 3600 (by decide)).2.1 30 [] rfl,
   (c3_parse_time_after_unit_amended 0 "xyz".data 3600 (by decide)).1 rfl⟩

/-- Claim C8 counterexample: a fully-resolved configuration whose `scopes`
list is empty (but not `None`) passes `is_complete`, because the check is
`assert getattr(self, field) is not None` — emptiness is never examined. -/
theorem c8_is_complete_empty_scopes_counterexample :
    c8Raw.scopes = some [] ∧
    (resolvePool [] "pool1" c8Raw 10).map (fun cfg => (cfg.scopes, cfg.is_complete))
      = .ok ([], .ok ()) :=
  ⟨rfl, rfl⟩

/-- Claim C8 (amended): `is_complete` succeeds exactly when every declared
field is non-`None`.  The four container fields (`macros`, `command`,
`parents`, `scopes`) are plain containers on every constructed object and
trivially pass; present-but-empty values are not rejected. -/
theorem c8_is_complete_amended (cfg : Config) :
    cfg.is_complete = .ok () ↔
      (cfg.cloud ≠ none ∧ cfg.container ≠ none ∧ cfg.cores_per_task ≠ none
        ∧ cfg.cpu ≠ none ∧ cfg.cycle_time ≠ none ∧ cfg.disk_size ≠ none
        ∧ cfg.imageset ≠ none ∧ cfg.metal ≠ none
        ∧ cfg.minimum_memory_per_core ≠ none ∧ cfg.name ≠ none
        ∧ cfg.platform ≠ none ∧ cfg.tasks ≠ none) := by
  rw [Config.is_complete]
  split <;> rename_i h <;> simp_all [Option.isSome_iff_ne_none]

/-- A successful `checkCloud` pins the raw value: it was present and one of
the two providers. -/
theorem checkCloud_ok {o : Option String} {c : String} (h : checkCloud o = .ok c) :
    o = some c ∧ (c = "aws" ∨ c = "gcp") := by
  cases o with
  | none => simp [checkCloud] at h
  | some c' =>
    simp only [checkCloud] at h
    split at h
    · rename_i hc
      cases h
      exact ⟨rfl, hc⟩
    · exact absurd h (by simp)

/-- Claim C9: any successfully constructed configuration — root or ancestor,
since parents are built through the same `__init__` — has a non-`None` `name`
(line 129) and a `cloud` in `{aws, gcp}` (lines 164-168), both taken verbatim
from the raw document; consequently the overwrite-if-unset loop of `_flatten`
never replaces either field, even though both appear in its field list. -/
theorem c9_name_cloud_not_inherited (f : String) (raw : RawPool)
    (cfg parent : Config) (h : initFields f raw = .ok cfg) :
    raw.name ≠ none ∧ cfg.name = raw.name ∧
    cfg.cloud = raw.cloud ∧ (cfg.cloud = some "aws" ∨ cfg.cloud = some "gcp") ∧
    (mergeNormalFields cfg parent).name = cfg.name ∧
    (mergeNormalFields cfg parent).cloud = cfg.cloud := by
  unfold initFields at h
  repeat' split at h
  all_goals try exact Except.noConfusion h
  obtain ⟨hcl1, hcl2⟩ := checkCloud_ok (by assumption)
  injection h with h'
  subst h'
  rcases hcl2 with hc | hc <;>
    refine ⟨?_, ?_, ?_, ?_, ?_, ?_⟩ <;> simp_all [mergeNormalFields, pyOr]

/-- The generator loop of `MachineTypes.filter` yields exactly the names of
the entries satisfying the claim's condition, in catalog order.  The
hypothesis rules out the `ZeroDivisionError` corner (it holds whenever
`minCores` is positive, and also under the catalog invariant of positive cpu
counts). -/
theorem filterLoop_eq (minCores : Nat) (minR : ℚ) (req : Bool)
    (entries : List (String × MachineSpec))
    (hz : ∀ e ∈ entries, minCores ≤ e.2.cpu → e.2.cpu ≠ 0) :
    filterLoop minCores minR req entries
      = .ok ((entries.filter
          (fun e => machineMatches minCores minR req e.2)).map Prod.fst) := by
  induction entries with
  | nil => rfl
  | cons e rest ih =>
    obtain ⟨name, spec⟩ := e
    have ih' := ih (fun x hx => hz x (List.mem_cons_of_mem _ hx))
    by_cases h1 : minCores ≤ spec.cpu
    · have h0 : ¬ spec.cpu = 0 := hz (name, spec) (List.mem_cons_self _ _) h1
      by_cases h2 : minR ≤ spec.ram / (spec.cpu : ℚ)
      · cases hr : req <;> cases hm : spec.metal.getD false <;>
          simp_all [filterLoop, machineMatches, List.filter_cons, Except.map]
      · simp_all [filterLoop, machineMatches, List.filter_cons]
    · simp_all [filterLoop, machineMatches, List.filter_cons]

/-- Claim C6: for a catalog with an entry list under the requested provider
and architecture (all cpu counts positive, per the catalog data model),
`filter` yields exactly the machine names whose spec satisfies the claim's
condition, in the catalog's insertion order.  The model is a pure function,
so re-invocation trivially recomputes the same sequence. -/
theorem c6_machine_filter_spec (m : MachineTypes) (provider architecture : String)
    (minCores : Nat) (minR : ℚ) (req : Bool)
    (entries : List (String × MachineSpec))
    (hent : m.lookupArch provider architecture = some entries)
    (hpos : ∀ e ∈ entries, 0 < e.2.cpu) :
    m.filter provider architecture minCores minR req
      = .ok ((entries.filter
          (fun e => machineMatches minCores minR req e.2)).map Prod.fst) := by
  have hstep : m.filter provider architecture minCores minR req
      = filterLoop minCores minR req entries := by
    unfold MachineTypes.filter
    rw [hent]
  rw [hstep]
  exact filterLoop_eq minCores minR req entries
    (fun e he _ => Nat.pos_iff_ne_zero.mp (hpos e he))

/-- Witness for C6 at the claim's example: minCores 4 and 2 GiB per core
select `m1`; requiring bare metal excludes it. -/
theorem c6_machine_filter_spec_witness :
    c6Mt.filter "aws" "x64" 4 (2 * 1024 ^ 3) false = .ok ["m1"] ∧
    c6Mt.filter "aws" "x64" 4 (2 * 1024 ^ 3) true = .ok [] := by
  constructor
  · rw [c6_machine_filter_spec c6Mt "aws" "x64" 4 (2 * 1024 ^ 3) false
      [("m1", ⟨8, 32 * 1024 ^ 3, some false⟩)] rfl (by decide)]
    norm_num [machineMatches, List.filter_cons]
  · rw [c6_machine_filter_spec c6Mt "aws" "x64" 4 (2 * 1024 ^ 3) true
      [("m1", ⟨8, 32 * 1024 ^ 3, some false⟩)] rfl (by decide)]
    norm_num [machineMatches, List.filter_cons]

/-- A pair in an association list makes `lookup` of its key succeed. -/
theorem lookup_isSome_of_mem {l : List (String × MachineSpec)} {a : String}
    {b : MachineSpec} (h : (a, b) ∈ l) : (l.lookup a).isSome := by
  induction l with
  | nil => cases h
  | cons e rest ih =>
    obtain ⟨k, v⟩ := e
    rcases List.mem_cons.mp h with heq | h'
    · cases heq
      simp [List.lookup]
    · by_cases hk : a = k
      · subst hk; simp [List.lookup]
      · have hbe : (a == k) = false := beq_eq_false_iff_ne.mpr hk
        simp [List.lookup, hbe, ih h']

/-- With duplicate-free keys (a Python dict), `lookup` returns the member's
own value. -/
theorem lookup_eq_of_mem_of_nodup {l : List (String × MachineSpec)} {a : String}
    {b : MachineSpec} (hnd : (l.map Prod.fst).Nodup) (h : (a, b) ∈ l) :
    l.lookup a = some b := by
  induction l with
  | nil => cases h
  | cons e rest ih =>
    obtain ⟨k, v⟩ := e
    simp only [List.map_cons, List.nodup_cons] at hnd
    rcases List.mem_cons.mp h with heq | h'
    · cases heq
      simp [List.lookup]
    · have hne : a ≠ k := by
        rintro rfl
        exact hnd.1 (List.mem_map_of_mem Prod.fst h')
      have hbe : (a == k) = false := beq_eq_false_iff_ne.mpr hne
      simp [List.lookup, hbe, ih hnd.2 h']

/-- The generator of `get_machine_list` on a list of names all present in the
catalog entry list: each yields its cpu count floor-divided by
`cores_per_task`. -/
theorem gmlLoop_eq (mt : MachineTypes) (cloud cpu : String) (cores : Nat)
    (h0 : ¬ cores = 0) (entries : List (String × MachineSpec))
    (hent : mt.lookupArch cloud cpu = some entries) (names : List String)
    (hn : ∀ n ∈ names, (entries.lookup n).isSome) :
    gmlLoop mt cloud cpu cores names
      = .ok (names.map (fun n => (n, cpuOf entries n / cores))) := by
  induction names with
  | nil => rfl
  | cons n rest ih =>
    have hs := hn n (List.mem_cons_self _ _)
    obtain ⟨spec, hspec⟩ := Option.isSome_iff_exists.mp hs
    have hcpus : mt.cpus cloud cpu n = .ok spec.cpu := by
      unfold MachineTypes.cpus
      rw [hent]
      simp [hspec]
    have ih' := ih (fun x hx => hn x (List.mem_cons_of_mem _ hx))
    simp [gmlLoop, hcpus, h0, ih', cpuOf, hspec]

/-- Claim C7 (amended): for a resolved configuration, `get_machine_list`
yields, for each machine passing the filter at the pool's own parameters, the
pair `(name, cpus // cores_per_task)` (exact integer floor division); since
the filter already requires `cpus >= cores_per_task`, a machine with fewer
cpus than `cores_per_task` is never yielded, and every yielded capacity is at
least 1. -/
theorem c7_get_machine_list_amended (cfg : Config) (mt : MachineTypes)
    (cloud cpu : String) (cores : Nat) (mmpc : ℚ)
    (entries : List (String × MachineSpec))
    (hcl : cfg.cloud = some cloud) (hcp : cfg.cpu = some cpu)
    (hco : cfg.cores_per_task = some cores)
    (hmm : cfg.minimum_memory_per_core = some mmpc) (h0 : 0 < cores)
    (hent : mt.lookupArch cloud cpu = some entries)
    (hnd : (entries.map Prod.fst).Nodup) :
    cfg.get_machine_list mt
      = .ok ((entries.filter
          (fun e => machineMatches cores mmpc (cfg.metal.getD false) e.2)).map
            (fun e => (e.1, e.2.cpu / cores))) ∧
    (∀ l, cfg.get_machine_list mt = .ok l → ∀ pr ∈ l, 1 ≤ pr.2) := by
  have h0' : ¬ cores = 0 := Nat.pos_iff_ne_zero.mp h0
  have hfil : mt.filter cloud cpu cores mmpc (cfg.metal.getD false)
      = .ok ((entries.filter
          (fun e => machineMatches cores mmpc (cfg.metal.getD false) e.2)).map
            Prod.fst) := by
    have hstep : mt.filter cloud cpu cores mmpc (cfg.metal.getD false)
        = filterLoop cores mmpc (cfg.metal.getD false) entries := by
      unfold MachineTypes.filter
      rw [hent]
    rw [hstep]
    exact filterLoop_eq _ _ _ entries
      (fun e _ hle => Nat.pos_iff_ne_zero.mp (lt_of_lt_of_le h0 hle))
  have hnames : ∀ n ∈ (entries.filter
      (fun e => machineMatches cores mmpc (cfg.metal.getD false) e.2)).map Prod.fst,
      (entries.lookup n).isSome := by
    intro n hnmem
    obtain ⟨e, he, rfl⟩ := List.mem_map.mp hnmem
    exact lookup_isSome_of_mem (List.mem_filter.mp he).1
  have hred : cfg.get_machine_list mt
      = gmlLoop mt cloud cpu cores ((entries.filter
          (fun e => machineMatches cores mmpc (cfg.metal.getD false) e.2)).map
            Prod.fst) := by
    unfold Config.get_machine_list
    rw [hco, hmm, hcl, hcp]
    show (match mt.filter cloud cpu cores mmpc (cfg.metal.getD false) with
      | Except.error e => (Except.error e : Except Err (List (String × Nat)))
      | Except.ok names => gmlLoop mt cloud cpu cores names) = _
    rw [hfil]
  have hmain : cfg.get_machine_list mt
      = .ok ((entries.filter
          (fun e => machineMatches cores mmpc (cfg.metal.getD false) e.2)).map
            (fun e => (e.1, e.2.cpu / cores))) := by
    rw [hred, gmlLoop_eq mt cloud cpu cores h0' entries hent _ hnames]
    rw [List.map_map]
    refine congrArg Except.ok (List.map_congr_left ?_)
    intro e he
    have hl : entries.lookup e.1 = some e.2 :=
      lookup_eq_of_mem_of_nodup hnd (List.mem_filter.mp he).1
    simp [Function.comp, cpuOf, hl]
  refine ⟨hmain, ?_⟩
  intro l hl pr hpr
  rw [hmain] at hl
  cases hl
  obtain ⟨e, he, rfl⟩ := List.mem_map.mp hpr
  have hmatch := (List.mem_filter.mp he).2
  simp only [machineMatches, Bool.and_eq_true, decide_eq_true_eq] at hmatch
  exact (Nat.one_le_div_iff h0).mpr hmatch.1.1

/-- Claim C7 counterexample: the catalog's only machine has 2 cpus while the
pool needs 3 cores per task; the claim predicts the pair `("tiny", 0)` but the
filter's `cpu >= cores_per_task` test excludes the machine entirely, so
`get_machine_list` yields nothing. -/
theorem c7_small_machine_counterexample :
    c7SmallMt.lookupArch "aws" "x64" = some [("tiny", ⟨2, 8 * 1024 ^ 3, none⟩)] ∧
    c7Cfg.cores_per_task = some 3 ∧
    c7Cfg.get_machine_list c7SmallMt = .ok [] :=
  ⟨rfl, rfl, rfl⟩

/-- Witness for C7's amended theorem: a machine with 8 cpus and
`cores_per_task = 3` yields capacity `floor(8/3) = 2`. -/
theorem c7_get_machine_list_amended_witness :
    c7Cfg.get_machine_list c7BigMt = .ok [("m1", 2)] := by
  have h := (c7_get_machine_list_amended c7Cfg c7BigMt "aws" "x64" 3 1
    [("m1", ⟨8, 32 * 1024 ^ 3, none⟩)] rfl rfl rfl rfl (by decide) rfl
    (by decide)).1
  rw [h]
  norm_num [machineMatches, List.filter_cons, c7Cfg, Option.getD]

/-- Witness for C9 at a concrete document: construction succeeds, and the
merge leaves `name` and `cloud` untouched although the parent offers
different values. -/
theorem c9_name_cloud_not_inherited_witness :
    c9Raw.name ≠ none ∧ c9Cfg.name = c9Raw.name ∧
    c9Cfg.cloud = c9Raw.cloud ∧ (c9Cfg.cloud = some "aws" ∨ c9Cfg.cloud = some "gcp") ∧
    (mergeNormalFields c9Cfg c9ParentCfg).name = c9Cfg.name ∧
    (mergeNormalFields c9Cfg c9ParentCfg).cloud = c9Cfg.cloud :=
  c9_name_cloud_not_inherited "x9" c9Raw c9Cfg c9ParentCfg rfl

/-- A digit character is not regex whitespace. -/
theorem pyWs_eq_false_of_isDigit {c : Char} (h : c.isDigit = true) :
    pyWs c = false := by
  cases hpw : pyWs c
  · rfl
  · exfalso
    simp only [pyWs, Bool.or_eq_true, decide_eq_true_eq] at hpw
    rcases hpw with ((((h1 | h1) | h1) | h1) | h1) | h1 <;> subst h1 <;>
      exact absurd h (by decide)

/-- Scanning a digit block followed by a non-digit stops exactly at the
block boundary. -/
theorem scan_digits_append {d1 rest : List Char}
    (hd : ∀ c ∈ d1, c.isDigit = true) (hrest : headNotDigitDot rest = true) :
    (d1 ++ rest).takeWhile Char.isDigit = d1
      ∧ (d1 ++ rest).dropWhile Char.isDigit = rest := by
  have hhead : ∀ c cs, rest = c :: cs → c.isDigit = false := by
    intro c cs hr
    rw [hr] at hrest
    simp only [headNotDigitDot, Bool.and_eq_true, Bool.not_eq_true'] at hrest
    exact hrest.1
  constructor
  · rw [List.takeWhile_append_of_pos hd]
    cases hr : rest with
    | nil => simp
    | cons c cs =>
      have := hhead c cs hr
      simp [List.takeWhile_cons_of_neg, this]
  · rw [List.dropWhile_append_of_pos hd]
    cases hr : rest with
    | nil => rfl
    | cons c cs =>
      have := hhead c cs hr
      simp [List.dropWhile_cons_of_neg, this]

/-- The regex alternation on a plain digit block: third alternative. -/
theorem numLitMatch_int {d1 rest : List Char}
    (hd : ∀ c ∈ d1, c.isDigit = true) (hne : d1 ≠ [])
    (hrest : headNotDigitDot rest = true) :
    numLitMatch (d1 ++ rest) = some ((decimalValue d1 : ℚ), rest) := by
  obtain ⟨ht, hdr⟩ := scan_digits_append hd hrest
  unfold numLitMatch
  rw [ht, hdr]
  obtain ⟨a, as, rfl⟩ := List.exists_cons_of_ne_nil hne
  cases hr : rest with
  | nil => rfl
  | cons c cs =>
    have hc : c ≠ '.' := by
      rw [hr] at hrest
      simp only [headNotDigitDot, Bool.and_eq_true, bne_iff_ne] at hrest
      exact hrest.2
    subst hr
    split <;> simp_all

/-- The regex alternation on digits, a dot, more digits: first alternative. -/
theorem numLitMatch_dec {d1 d2 rest : List Char}
    (hd1 : ∀ c ∈ d1, c.isDigit = true) (hne : d1 ≠ [])
    (hd2 : ∀ c ∈ d2, c.isDigit = true) (hrest : headNotDigitDot rest = true) :
    numLitMatch (d1 ++ '.' :: (d2 ++ rest))
      = some ((decimalValue d1 : ℚ)
          + (decimalValue d2 : ℚ) / (10 : ℚ) ^ d2.length, rest) := by
  obtain ⟨ht2, hdr2⟩ := scan_digits_append hd2 hrest
  have ht : (d1 ++ '.' :: (d2 ++ rest)).takeWhile Char.isDigit = d1 := by
    rw [List.takeWhile_append_of_pos hd1]
    simp [List.takeWhile_cons_of_neg, (by decide : ('.').isDigit = false)]
  have hdr : (d1 ++ '.' :: (d2 ++ rest)).dropWhile Char.isDigit
      = '.' :: (d2 ++ rest) := by
    rw [List.dropWhile_append_of_pos hd1]
    simp [List.dropWhile_cons_of_neg, (by decide : ('.').isDigit = false)]
  unfold numLitMatch
  rw [ht, hdr]
  obtain ⟨a, as, rfl⟩ := List.exists_cons_of_ne_nil hne
  simp [ht2, hdr2]

/-- The regex alternation on a dot followed by digits: second alternative. -/
theorem numLitMatch_frac {d2 rest : List Char}
    (hd2 : ∀ c ∈ d2, c.isDigit = true) (hne : d2 ≠ [])
    (hrest : headNotDigitDot rest = true) :
    numLitMatch ('.' :: (d2 ++ rest))
      = some ((decimalValue d2 : ℚ) / (10 : ℚ) ^ d2.length, rest) := by
  obtain ⟨ht2, hdr2⟩ := scan_digits_append hd2 hrest
  have ht : ('.' :: (d2 ++ rest)).takeWhile Char.isDigit = [] := by
    simp [List.takeWhile_cons_of_neg, (by decide : ('.').isDigit = false)]
  have hdr : ('.' :: (d2 ++ rest)).dropWhile Char.isDigit = '.' :: (d2 ++ rest) := by
    simp [List.dropWhile_cons_of_neg, (by decide : ('.').isDigit = false)]
  unfold numLitMatch
  rw [ht, hdr]
  obtain ⟨a, as, rfl⟩ := List.exists_cons_of_ne_nil hne
  simp only [ht2, hdr2]

/-- For every choice of optional SI prefix and optional `b`, the trailing
part is inert: nothing in it is whitespace, a digit or a dot, and the
multiplier `parse_size` reads off it is the prefix's. -/
theorem pre_bs_inert (pre bs : List Char)
    (hpre : pre ∈ ([[], ['k'], ['m'], ['g'], ['t'], ['K'], ['M'], ['G'], ['T']] :
      List (List Char)))
    (hbs : bs ∈ ([[], ['b'], ['B']] : List (List Char))) :
    headNotDigitDot (pre ++ bs) = true ∧
    (pre ++ bs).dropWhile pyWs = pre ++ bs ∧
    multOf (pre ++ bs) = siMultL pre := by
  fin_cases hpre <;> fin_cases hbs <;> exact ⟨rfl, rfl, rfl⟩

/-- Assembling `parse_size` from a successful literal match whose remainder
contains no whitespace to strip. -/
theorem parse_size_of_numLit {L rest : List Char} {v : ℚ} (d : ℚ)
    (hnws : L.dropWhile pyWs = L)
    (hmatch : numLitMatch L = some (v, rest))
    (hrd : rest.dropWhile pyWs = rest) :
    parse_size ⟨L⟩ d = .ok (v * multOf rest / d) := by
  unfold parse_size
  rw [show (String.mk L).data = L from rfl, hnws, hmatch]
  show Except.ok (v * multOf (rest.dropWhile pyWs) / d) = _
  rw [hrd]

/-- When the input does not begin with a numeric literal, the `parse_size`
regex fails and the assert raises. -/
theorem parse_size_error_of_not_starts (d : ℚ) (s : String)
    (hs : startsWithNumericLiteral s = false) :
    parse_size s d = .error .parseError := by
  unfold parse_size
  have hnone : numLitMatch (s.data.dropWhile pyWs) = none := by
    unfold startsWithNumericLiteral at hs
    rcases ht : s.data.dropWhile pyWs with _ | ⟨c, rest⟩
    · rfl
    · rw [ht] at hs
      simp only [headNumericLiteral, Bool.or_eq_false_iff,
        Bool.and_eq_false_iff, decide_eq_false_iff_not] at hs
      have hcd : c.isDigit = false := hs.1
      unfold numLitMatch
      rw [List.takeWhile_cons_of_neg (by simp [hcd]),
        List.dropWhile_cons_of_neg (by simp [hcd])]
      by_cases hc : c = '.'
      · subst hc
        have hhd : headDigit rest = false := by
          rcases hs.2 with h | h
          · exact absurd rfl h
          · exact h
        rcases rest with _ | ⟨r0, rs⟩
        · rfl
        · have hr0 : r0.isDigit = false := by
            simpa [headDigit] using hhd
          simp [List.takeWhile_cons_of_neg, hr0]
      · split <;> simp_all
  rw [hnone]

/-- Claim C4 counterexample: `re.match` only anchors at the start of the
string, so the unrecognized trailing text of `"4qx"` is ignored and the call
returns `4.0` instead of raising `ParseError`. -/
theorem c4_trailing_garbage_counterexample : parse_size "4qx" 1 = .ok 4 := by
  have h : parse_size "4qx" 1 = .ok ((4 : ℚ) * 1 / 1) := rfl
  rw [h]; norm_num

/-- Claim C4 (amended): `parse_size` fails exactly when the string does not
begin, after optional whitespace, with a numeric literal; on a string
consisting of a numeric literal (integer part, optional dot, optional
fraction part), an optional case-insensitive SI prefix and an optional `b`,
it returns the number times the prefix's binary multiplier divided by the
divisor; any text after the consumed part is ignored rather than rejected, so
`parse_size "4qx" == 4.0` while `parse_size "4g" == 4*1024^3` and
`parse_size "1g"` with divisor `parse_size "1g"` is `1.0`. -/
theorem c4_parse_size_amended (d : ℚ) (intPart dot fracPart pre bs : List Char)
    (hint : ∀ c ∈ intPart, c.isDigit = true)
    (hfrac : ∀ c ∈ fracPart, c.isDigit = true)
    (hdot : dot = ['.'] ∨ (dot = [] ∧ fracPart = []))
    (hne : intPart ≠ [] ∨ fracPart ≠ [])
    (hpre : pre ∈ ([[], ['k'], ['m'], ['g'], ['t'], ['K'], ['M'], ['G'], ['T']] :
      List (List Char)))
    (hbs : bs ∈ ([[], ['b'], ['B']] : List (List Char))) :
    parse_size ⟨intPart ++ dot ++ fracPart ++ pre ++ bs⟩ d
      = .ok (((decimalValue intPart : ℚ)
          + (decimalValue fracPart : ℚ) / (10 : ℚ) ^ fracPart.length)
            * siMultL pre / d) ∧
    (∀ s : String, startsWithNumericLiteral s = false →
      parse_size s d = .error .parseError) ∧
    parse_size "4g" 1 = .ok (4 * 1024 ^ 3) ∧
    parse_size "1g" (1024 ^ 3) = .ok 1 ∧
    parse_size "4qx" 1 = .ok 4 := by
  obtain ⟨hinert, hdropPB, hmult⟩ := pre_bs_inert pre bs hpre hbs
  refine ⟨?_, fun s hs => parse_size_error_of_not_starts d s hs, ?_, ?_, ?_⟩
  · rcases hdot with hdot | ⟨hdot, hfrac0⟩
    · subst hdot
      cases intPart with
      | nil =>
        have hfne : fracPart ≠ [] := by
          rcases hne with h | h
          · exact absurd rfl h
          · exact h
        have hL : (⟨([] : List Char) ++ ['.'] ++ fracPart ++ pre ++ bs⟩ : String)
            = ⟨'.' :: (fracPart ++ (pre ++ bs))⟩ := by
          apply congrArg String.mk
          simp
        have hnws : ('.' :: (fracPart ++ (pre ++ bs))).dropWhile pyWs
            = '.' :: (fracPart ++ (pre ++ bs)) := by
          rw [List.dropWhile_cons_of_neg]
          simp [pyWs]
        rw [hL, parse_size_of_numLit d hnws
          (numLitMatch_frac hfrac hfne hinert) hdropPB, hmult]
        simp [decimalValue]
      | cons a as =>
        have hL : (⟨(a :: as) ++ ['.'] ++ fracPart ++ pre ++ bs⟩ : String)
            = ⟨(a :: as) ++ '.' :: (fracPart ++ (pre ++ bs))⟩ := by
          apply congrArg String.mk
          simp
        have hnws : ((a :: as) ++ '.' :: (fracPart ++ (pre ++ bs))).dropWhile pyWs
            = (a :: as) ++ '.' :: (fracPart ++ (pre ++ bs)) := by
          rw [List.cons_append, List.dropWhile_cons_of_neg]
          simp [pyWs_eq_false_of_isDigit (hint a (List.mem_cons_self a as))]
        rw [hL, parse_size_of_numLit d hnws
          (numLitMatch_dec hint (by simp) hfrac hinert) hdropPB, hmult]
    · subst hdot
      subst hfrac0
      have hine : intPart ≠ [] := by
        rcases hne with h | h
        · exact h
        · exact absurd rfl h
      obtain ⟨a, as, rfl⟩ := List.exists_cons_of_ne_nil hine
      have hL : (⟨(a :: as) ++ [] ++ [] ++ pre ++ bs⟩ : String)
          = ⟨(a :: as) ++ (pre ++ bs)⟩ := by
        apply congrArg String.mk
        simp
      have hnws : ((a :: as) ++ (pre ++ bs)).dropWhile pyWs
          = (a :: as) ++ (pre ++ bs) := by
        rw [List.cons_append, List.dropWhile_cons_of_neg]
        simp [pyWs_eq_false_of_isDigit (hint a (List.mem_cons_self a as))]
      rw [hL, parse_size_of_numLit d hnws
        (numLitMatch_int hint (by simp) hinert) hdropPB, hmult]
      simp [decimalValue]
  · have h : parse_size "4g" 1 = .ok ((4 : ℚ) * 1024 ^ 3 / 1) := rfl
    rw [h]; norm_num
  · have h : parse_size "1g" (1024 ^ 3) = .ok ((1 : ℚ) * 1024 ^ 3 / 1024 ^ 3) := rfl
    rw [h]; norm_num
  · have h : parse_size "4qx" 1 = .ok ((4 : ℚ) * 1 / 1) := rfl
    rw [h]; norm_num

/-- Witness for C4's amended theorem: rendering `"4g"` as integer part `4`
with prefix `g` and applying the theorem. -/
theorem c4_parse_size_amended_witness :
    parse_size ⟨['4'] ++ [] ++ [] ++ ['g'] ++ []⟩ 1
      = .ok (((decimalValue ['4'] : ℚ)
          + (decimalValue [] : ℚ) / (10 : ℚ) ^ (List.length ([] : List Char)))
            * siMultL ['g'] / 1) :=
  (c4_parse_size_amended 1 ['4'] [] [] ['g'] [] (by decide) (by decide)
    (Or.inr ⟨rfl, rfl⟩) (Or.inl (by decide)) (by decide) (by decide)).1
